import Mathlib

/-!
Verification of the resonance-guild-tracker repository.

The development shallowly embeds the data-handling core of the two Python
sources (`GitHub_version.py`, `playwright_tracker.py`):

* the timestamped snapshot-column label built from `datetime.now().strftime`,
* `update_spreadsheet`, which builds a fresh 7-column grid from the current
  member list and writes it with `worksheet.clear()` followed by
  `worksheet.update(...)` (full overwrite of the main worksheet),
* `process_backup_data`, which filters the rows of the backup sheet and turns
  the admitted ones into member records.

Machine integers do not occur; all cell values are strings and all indices are
naturals.
-/

/-- One guild member as carried around by the Python code: the dictionaries
with keys Rank, Name, Title, Vocation, Level, Joining Date. -/
structure Member where
  rank : String
  name : String
  title : String
  vocation : String
  level : String
  joiningDate : String
deriving DecidableEq, Repr

/-- A timestamp as produced by `datetime.now()`, restricted to the fields the
format string `%d/%m/%Y_%H:%M:%S` prints. -/
structure DateTime where
  day : Nat
  month : Nat
  year : Nat
  hour : Nat
  minute : Nat
  second : Nat
deriving DecidableEq, Repr

/-- Field bounds guaranteed by Python `datetime` (day 1..31, month 1..12,
year 1..9999, hour 0..23, minute and second 0..59); we only need the widths
that make the zero-padded rendering injective. -/
def validTime (t : DateTime) : Prop :=
  t.day < 100 ∧ t.month < 100 ∧ t.year < 10000 ∧
  t.hour < 100 ∧ t.minute < 100 ∧ t.second < 100

instance (t : DateTime) : Decidable (validTime t) := by
  unfold validTime; infer_instance

/-- Two-digit zero-padded decimal rendering, as `strftime` produces for
`%d`, `%m`, `%H`, `%M`, `%S` on in-range values. -/
def pad2 (n : Nat) : String :=
  String.mk [Nat.digitChar (n / 10 % 10), Nat.digitChar (n % 10)]

/-- Four-digit zero-padded decimal rendering, as `strftime` produces for
`%Y` on years up to 9999. -/
def pad4 (n : Nat) : String :=
  String.mk [Nat.digitChar (n / 1000 % 10), Nat.digitChar (n / 100 % 10),
             Nat.digitChar (n / 10 % 10), Nat.digitChar (n % 10)]

/-- `current_datetime.strftime("%d/%m/%Y_%H:%M:%S")`. -/
def timestampStr (t : DateTime) : String :=
  pad2 t.day ++ "/" ++ pad2 t.month ++ "/" ++ pad4 t.year ++ "_" ++
  pad2 t.hour ++ ":" ++ pad2 t.minute ++ ":" ++ pad2 t.second

/-- The label of the run's snapshot column:
`f'Level_{current_datetime.strftime("%d/%m/%Y_%H:%M:%S")}'`. -/
def levelColumnName (t : DateTime) : String :=
  "Level_" ++ timestampStr t

/-- The header row written by `update_spreadsheet`:
`['Rank', 'Name', 'Title', 'Vocation', 'Level', 'Joining Date', f'Level_...']`. -/
def headers (t : DateTime) : List String :=
  ["Rank", "Name", "Title", "Vocation", "Level", "Joining Date", levelColumnName t]

/-- The row built for one member inside `update_spreadsheet`: the six base
fields followed by the level again in the timestamp column (the source comment
reads "Same level in timestamp column"). -/
def member_to_row (m : Member) : List String :=
  [m.rank, m.name, m.title, m.vocation, m.level, m.joiningDate, m.level]

/-- The grid effect of a successful `update_spreadsheet` run on the main
worksheet: `rows = [headers]`, then one appended row per member of
`guild_data`, then `worksheet.clear()` and `worksheet.update(values=rows)`.
The worksheet's previous contents `prevGrid` are discarded entirely; the
function never reads them. -/
def update_spreadsheet (now : DateTime) (prevGrid : List (List String))
    (guild_data : List Member) : List (List String) :=
  headers now :: guild_data.map member_to_row

/-- The durable sheets of one tracked guild.  The sources only ever open the
main worksheet `Resonance_Remain`; `archive` stands for any other worksheet
(such as a departed-member ledger), included so that non-effects on it can be
stated. -/
structure SheetStore where
  main : List (List String)
  archive : List (List String)
deriving DecidableEq, Repr

/-- Store-level effect of one successful `update_spreadsheet` call: the main
worksheet is overwritten with the freshly built grid; no other worksheet is
touched (the function references no archive sheet at all). -/
def run_update (now : DateTime) (store : SheetStore)
    (guild_data : List Member) : SheetStore :=
  { store with main := update_spreadsheet now store.main guild_data }

/-- Where, if anywhere, the store raises during the body of
`update_spreadsheet`.  The whole body sits in one `try` block that returns
`False` on any exception, and the two mutating calls are
`worksheet.clear()` then `worksheet.update(...)`. -/
inductive StoreFailure where
  | noFailure : StoreFailure
  | onClear : StoreFailure
  | onUpdate : StoreFailure
deriving DecidableEq, Repr

/-- `update_spreadsheet` with a failure injection point: the returned `Bool`
is the Python return value, the returned grid is the main worksheet's
contents afterwards.  A failure at or before `worksheet.clear()` leaves the
sheet unchanged; a failure of `worksheet.update(...)` after a successful
clear leaves the sheet empty. -/
def update_spreadsheet_fallible (now : DateTime) (prevGrid : List (List String))
    (guild_data : List Member) : StoreFailure → Bool × List (List String)
  | StoreFailure.noFailure => (true, update_spreadsheet now prevGrid guild_data)
  | StoreFailure.onClear => (false, prevGrid)
  | StoreFailure.onUpdate => (false, [])

/-- The skip list of `process_backup_data`:
`row[1] not in ["", "INSTRUCTIONS:", "Example Member"]`. -/
def skip_values : List String :=
  ["", "INSTRUCTIONS:", "Example Member"]

/-- The member dictionary built from an admitted backup row:
Rank, Name, Title, Vocation, Level, Joining Date from cells 1..6. -/
def row_to_member (row : List String) : Member :=
  { rank := row.getD 1 "", name := row.getD 2 "", title := row.getD 3 "",
    vocation := row.getD 4 "", level := row.getD 5 "",
    joiningDate := row.getD 6 "" }

/-- The admission test of `process_backup_data`:
`len(row) >= 7 and row[1] and row[2]` and then
`row[1] not in ["", "INSTRUCTIONS:", "Example Member"]`
(a non-empty Python string is truthy). -/
def admits_row (row : List String) : Bool :=
  decide (7 ≤ row.length) && !(row.getD 1 "" == "") && !(row.getD 2 "" == "") &&
  !(skip_values.contains (row.getD 1 ""))

/-- Member extraction of `process_backup_data`: if the sheet has fewer than
two rows it reports no data; otherwise every row after the header that
passes `admits_row` is appended to `guild_data` as a member record, in
order. -/
def process_backup_data (data : List (List String)) : List Member :=
  if data.length < 2 then []
  else ((data.drop 1).filter admits_row).map row_to_member

/-- The header row of the backup sheet `Current_Guild_Data`, from
`ip_blocking_detected_solution`. -/
def data_headers : List String :=
  ["Date", "Rank", "Name", "Title", "Vocation", "Level", "Joining Date",
   "Status", "Notes", "Source Method"]

/-- The pre-filled template row of the backup sheet, from
`ip_blocking_detected_solution`; its first cell is the current date. -/
def template_row (d : String) : List String :=
  [d, "Leader", "Example Member", "", "Elite Knight", "100", "Jan 01 2025",
   "Active", "Manual entry due to IP block", "VPN/Manual"]

/-- A column label is a snapshot label when it starts with the six
characters `Level_`. -/
def isLevelCol (s : String) : Bool :=
  s.data.take 6 == "Level_".data

/-- Modelled from the spec: the source contains no list of vocation phrases
(its parsers are stubs that hard-code `Elite Knight`), so the spec's "small
fixed set of character classes" is rendered as the full set of vocation
names the scraped game uses, including the one the source exhibits. -/
def vocations : List String :=
  ["None", "Knight", "Elite Knight", "Paladin", "Royal Paladin",
   "Sorcerer", "Master Sorcerer", "Druid", "Elder Druid"]

/-- Substring occurrence on character lists, used to state that a line
contains no vocation phrase. -/
def occursIn (pat : List Char) : List Char → Bool
  | [] => pat.isEmpty
  | c :: rest => List.isPrefixOf pat (c :: rest) || occursIn pat rest

/-! ## Helper lemmas -/

lemma timestampStr_data (t : DateTime) : (timestampStr t).data =
    [Nat.digitChar (t.day / 10 % 10), Nat.digitChar (t.day % 10), '/',
     Nat.digitChar (t.month / 10 % 10), Nat.digitChar (t.month % 10), '/',
     Nat.digitChar (t.year / 1000 % 10), Nat.digitChar (t.year / 100 % 10),
     Nat.digitChar (t.year / 10 % 10), Nat.digitChar (t.year % 10), '_',
     Nat.digitChar (t.hour / 10 % 10), Nat.digitChar (t.hour % 10), ':',
     Nat.digitChar (t.minute / 10 % 10), Nat.digitChar (t.minute % 10), ':',
     Nat.digitChar (t.second / 10 % 10), Nat.digitChar (t.second % 10)] := rfl

lemma digitChar_injOn : ∀ a, a < 10 → ∀ b, b < 10 →
    Nat.digitChar a = Nat.digitChar b → a = b := by decide

lemma timestampStr_injOn (t1 t2 : DateTime) (h1 : validTime t1) (h2 : validTime t2)
    (h : timestampStr t1 = timestampStr t2) : t1 = t2 := by
  obtain ⟨d1, mo1, y1, ho1, mi1, s1⟩ := t1
  obtain ⟨d2, mo2, y2, ho2, mi2, s2⟩ := t2
  obtain ⟨hd1, hm1, hy1, hh1, hmi1, hs1⟩ := h1
  obtain ⟨hd2, hm2, hy2, hh2, hmi2, hs2⟩ := h2
  simp only at hd1 hm1 hy1 hh1 hmi1 hs1 hd2 hm2 hy2 hh2 hmi2 hs2
  have hd := congrArg String.data h
  rw [timestampStr_data, timestampStr_data] at hd
  simp only [List.cons.injEq, and_true] at hd
  simp only [DateTime.mk.injEq]
  obtain ⟨e1, e2, -, e3, e4, -, e5, e6, e7, e8, -, e9, e10, -, e11, e12, -, e13, e14⟩ := hd
  refine ⟨?_, ?_, ?_, ?_, ?_, ?_⟩
  · have a1 := digitChar_injOn _ (by omega) _ (by omega) e1
    have a2 := digitChar_injOn _ (by omega) _ (by omega) e2
    omega
  · have a1 := digitChar_injOn _ (by omega) _ (by omega) e3
    have a2 := digitChar_injOn _ (by omega) _ (by omega) e4
    omega
  · have a1 := digitChar_injOn _ (by omega) _ (by omega) e5
    have a2 := digitChar_injOn _ (by omega) _ (by omega) e6
    have a3 := digitChar_injOn _ (by omega) _ (by omega) e7
    have a4 := digitChar_injOn _ (by omega) _ (by omega) e8
    omega
  · have a1 := digitChar_injOn _ (by omega) _ (by omega) e9
    have a2 := digitChar_injOn _ (by omega) _ (by omega) e10
    omega
  · have a1 := digitChar_injOn _ (by omega) _ (by omega) e11
    have a2 := digitChar_injOn _ (by omega) _ (by omega) e12
    omega
  · have a1 := digitChar_injOn _ (by omega) _ (by omega) e13
    have a2 := digitChar_injOn _ (by omega) _ (by omega) e14
    omega

lemma levelColumnName_data (t : DateTime) : (levelColumnName t).data =
    'L' :: 'e' :: 'v' :: 'e' :: 'l' :: '_' :: (timestampStr t).data := rfl

lemma levelColumnName_injOn (t1 t2 : DateTime) (h1 : validTime t1) (h2 : validTime t2)
    (h : levelColumnName t1 = levelColumnName t2) : t1 = t2 := by
  apply timestampStr_injOn t1 t2 h1 h2
  have hd := congrArg String.data h
  rw [levelColumnName_data, levelColumnName_data] at hd
  simp only [List.cons.injEq, true_and] at hd
  cases ht1 : timestampStr t1
  cases ht2 : timestampStr t2
  rw [ht1, ht2] at hd
  exact congrArg String.mk hd

lemma isLevelCol_levelColumnName (t : DateTime) : isLevelCol (levelColumnName t) = true := rfl

/-! ## Claim theorems -/

/-- C7: every run derives its snapshot-column label as the string `Level_`
followed by the current date and time at second resolution (the label is the
seventh header of the written grid), and timestamps that differ anywhere in
their printed fields yield distinct labels, so each run's label is distinct
from the labels of runs at other seconds. -/
theorem snapshot_label_fresh (t1 t2 : DateTime)
    (h1 : validTime t1) (h2 : validTime t2) :
    (headers t1).getD 6 "" = "Level_" ++ timestampStr t1 ∧
    (levelColumnName t1 = levelColumnName t2 → t1 = t2) := by
  exact ⟨rfl, levelColumnName_injOn t1 t2 h1 h2⟩

/-- Witness for C7 at two concrete timestamps one second apart. -/
theorem snapshot_label_fresh_witness :
    validTime (DateTime.mk 11 10 2026 12 0 0) ∧
    validTime (DateTime.mk 11 10 2026 12 0 1) ∧
    ((headers (DateTime.mk 11 10 2026 12 0 0)).getD 6 "" =
        "Level_" ++ timestampStr (DateTime.mk 11 10 2026 12 0 0) ∧
      (levelColumnName (DateTime.mk 11 10 2026 12 0 0) =
          levelColumnName (DateTime.mk 11 10 2026 12 0 1) →
        DateTime.mk 11 10 2026 12 0 0 = DateTime.mk 11 10 2026 12 0 1)) :=
  ⟨by decide, by decide, snapshot_label_fresh _ _ (by decide) (by decide)⟩

/-- C6: after a successful run the non-header rows of the written grid are
exactly the rows built from the current scrape's members, in scrape order and
independently of the previous grid; every non-header row belongs to some
current member, so no departed member's row remains. -/
theorem main_rows_match_scrape (now : DateTime) (prevGrid : List (List String))
    (guild_data : List Member) :
    ((update_spreadsheet now prevGrid guild_data).drop 1).length = guild_data.length ∧
    (∀ (i : Nat) (m : Member), guild_data[i]? = some m →
      ((update_spreadsheet now prevGrid guild_data).drop 1)[i]? = some (member_to_row m) ∧
      (member_to_row m)[1]? = some m.name) ∧
    (∀ row ∈ (update_spreadsheet now prevGrid guild_data).drop 1,
      ∃ m ∈ guild_data, row = member_to_row m) := by
  refine ⟨by simp [update_spreadsheet], ?_, ?_⟩
  · intro i m hm
    exact ⟨by simp [update_spreadsheet, List.getElem?_map, hm], rfl⟩
  · intro row hrow
    simp only [update_spreadsheet, List.drop_succ_cons, List.drop_zero,
      List.mem_map] at hrow
    obtain ⟨m, hm, rfl⟩ := hrow
    exact ⟨m, hm, rfl⟩

/-- Witness for C6 at a one-member scrape over a nonempty previous grid. -/
theorem main_rows_match_scrape_witness :
    ((update_spreadsheet (DateTime.mk 1 1 2025 0 0 0)
        [["Rank"], ["Member", "Bob"]]
        [Member.mk "Leader" "Alice" "" "Elite Knight" "100" "Jan 01 2025"]).drop 1)[0]? =
      some (member_to_row (Member.mk "Leader" "Alice" "" "Elite Knight" "100" "Jan 01 2025")) :=
  ((main_rows_match_scrape _ _ _).2.1 0 _ (by rfl)).1

/-- C9: the header row written by `update_spreadsheet` has 7 entries, every
row of the written grid has exactly 7 cells, and in every member row the base
Level cell (index 4) equals the newest snapshot cell (index 6). -/
theorem grid_rows_seven_cells (now : DateTime) (prevGrid : List (List String))
    (guild_data : List Member) :
    (headers now).length = 7 ∧
    (∀ row ∈ update_spreadsheet now prevGrid guild_data, row.length = 7) ∧
    (∀ row ∈ (update_spreadsheet now prevGrid guild_data).drop 1,
      row.getD 4 "" = row.getD 6 "") := by
  refine ⟨rfl, ?_, ?_⟩
  · intro row hrow
    simp only [update_spreadsheet, List.mem_cons, List.mem_map] at hrow
    rcases hrow with rfl | ⟨m, _, rfl⟩
    · rfl
    · rfl
  · intro row hrow
    simp only [update_spreadsheet, List.drop_succ_cons, List.drop_zero,
      List.mem_map] at hrow
    obtain ⟨m, _, rfl⟩ := hrow
    rfl

/-- Witness for C9 at a concrete one-member grid. -/
theorem grid_rows_seven_cells_witness :
    member_to_row (Member.mk "Leader" "Alice" "" "Elite Knight" "100" "Jan 01 2025") ∈
      (update_spreadsheet (DateTime.mk 1 1 2025 0 0 0) []
        [Member.mk "Leader" "Alice" "" "Elite Knight" "100" "Jan 01 2025"]).drop 1 ∧
    (member_to_row (Member.mk "Leader" "Alice" "" "Elite Knight" "100" "Jan 01 2025")).getD 4 "" =
      (member_to_row (Member.mk "Leader" "Alice" "" "Elite Knight" "100" "Jan 01 2025")).getD 6 "" :=
  ⟨by decide, (grid_rows_seven_cells (DateTime.mk 1 1 2025 0 0 0) []
      [Member.mk "Leader" "Alice" "" "Elite Knight" "100" "Jan 01 2025"]).2.2 _ (by decide)⟩

/-- C4 counterexample: with two current entries both named Alice, the written
grid holds two rows carrying that name (one per entry), not exactly one as the
claim states. -/
theorem duplicate_name_two_rows :
    (((update_spreadsheet (DateTime.mk 1 1 2025 0 0 0) []
        [Member.mk "Member" "Alice" "" "Elite Knight" "100" "Jan 05 2023",
         Member.mk "Member" "Alice" "" "Druid" "200" "Jan 06 2023"]).drop 1).filter
      (fun row => row.getD 1 "" == "Alice")).length = 2 := by decide

/-- C4 amended: the grid is built with one row per entry of the current member
list, in list order; duplicate names are not deduplicated and no entry
overwrites another, so a name occurring twice yields two rows. -/
theorem duplicate_name_rows_per_entry (now : DateTime)
    (prevGrid : List (List String)) (guild_data : List Member) :
    (update_spreadsheet now prevGrid guild_data).drop 1 = guild_data.map member_to_row ∧
    ((update_spreadsheet now prevGrid guild_data).drop 1).length = guild_data.length := by
  exact ⟨rfl, by simp [update_spreadsheet]⟩

/-- C1 counterexample: a previous grid records the snapshot column
`Level_01/01/2024_10:00:00`; after the next run (timestamped one day later)
that column label is absent from the written grid's header row, so the
previously recorded snapshot column is not retained. -/
theorem history_column_dropped :
    "Level_01/01/2024_10:00:00" ∈
      ([["Rank", "Name", "Title", "Vocation", "Level", "Joining Date",
         "Level_01/01/2024_10:00:00"],
        ["Member", "Alice", "", "Elite Knight", "100", "Jan 05 2023",
         "100"]].getD 0 []) ∧
    isLevelCol "Level_01/01/2024_10:00:00" = true ∧
    "Level_01/01/2024_10:00:00" ∉
      ((update_spreadsheet (DateTime.mk 2 1 2024 10 0 0)
        [["Rank", "Name", "Title", "Vocation", "Level", "Joining Date",
          "Level_01/01/2024_10:00:00"],
         ["Member", "Alice", "", "Elite Knight", "100", "Jan 05 2023", "100"]]
        [Member.mk "Member" "Alice" "" "Elite Knight" "105" "Jan 05 2023"]).getD 0 []) := by
  decide

/-- C1 amended: the next grid's header row is always the six fixed base
headers followed by exactly one Level_ column, the freshly derived label; the
written grid does not depend on the previous grid at all, so previously
recorded Level_ columns are not carried over. -/
theorem history_columns_not_retained (now : DateTime)
    (prevGrid alt : List (List String)) (guild_data : List Member) :
    (update_spreadsheet now prevGrid guild_data).getD 0 [] = headers now ∧
    (headers now).filter isLevelCol = [levelColumnName now] ∧
    update_spreadsheet now prevGrid guild_data = update_spreadsheet now alt guild_data := by
  refine ⟨rfl, ?_, rfl⟩
  have h1 : isLevelCol "Rank" = false := rfl
  have h2 : isLevelCol "Name" = false := rfl
  have h3 : isLevelCol "Title" = false := rfl
  have h4 : isLevelCol "Vocation" = false := rfl
  have h5 : isLevelCol "Level" = false := rfl
  have h6 : isLevelCol "Joining Date" = false := rfl
  simp [headers, List.filter_cons, h1, h2, h3, h4, h5, h6,
    isLevelCol_levelColumnName]

/-- C2 counterexample: Alice first appears with level 100; on the next run
she is still present with scraped level 200, and the written grid's base
Level cell (index 4) of her row reads 200, not the original 100: the cell is
rewritten, not preserved. -/
theorem base_level_overwritten :
    ((update_spreadsheet (DateTime.mk 1 1 2024 10 0 0) []
        [Member.mk "Member" "Alice" "" "Elite Knight" "100" "Jan 05 2023"]).getD 1 []).getD 4 ""
      = "100" ∧
    ((update_spreadsheet (DateTime.mk 2 1 2024 10 0 0)
        (update_spreadsheet (DateTime.mk 1 1 2024 10 0 0) []
          [Member.mk "Member" "Alice" "" "Elite Knight" "100" "Jan 05 2023"])
        [Member.mk "Member" "Alice" "" "Elite Knight" "200" "Jan 05 2023"]).getD 1 []).getD 4 ""
      = "200" := by
  decide

/-- C2 amended: the base Level cell (index 4) is written on every run with
the member's currently scraped level, regardless of what any previous grid
recorded; it is not preserved from the member's first appearance. -/
theorem base_level_rewritten_each_run (now : DateTime)
    (prevGrid : List (List String)) (guild_data : List Member) :
    ∀ (i : Nat) (m : Member), guild_data[i]? = some m →
      (update_spreadsheet now prevGrid guild_data)[i + 1]? = some (member_to_row m) ∧
      (member_to_row m).getD 4 "" = m.level := by
  intro i m hm
  exact ⟨by simp [update_spreadsheet, List.getElem?_cons_succ, List.getElem?_map, hm], rfl⟩

/-- Witness for C2's amended statement at a concrete second run in which the
member's level changed. -/
theorem base_level_rewritten_each_run_witness :
    (update_spreadsheet (DateTime.mk 2 1 2024 10 0 0)
        [["Rank"], ["Member", "Alice", "", "Elite Knight", "100", "Jan 05 2023", "100"]]
        [Member.mk "Member" "Alice" "" "Elite Knight" "200" "Jan 05 2023"])[1]? =
      some (member_to_row (Member.mk "Member" "Alice" "" "Elite Knight" "200" "Jan 05 2023")) ∧
    (member_to_row (Member.mk "Member" "Alice" "" "Elite Knight" "200" "Jan 05 2023")).getD 4 ""
      = "200" :=
  base_level_rewritten_each_run (DateTime.mk 2 1 2024 10 0 0)
    [["Rank"], ["Member", "Alice", "", "Elite Knight", "100", "Jan 05 2023", "100"]]
    [Member.mk "Member" "Alice" "" "Elite Knight" "200" "Jan 05 2023"] 0 _ (by rfl)

/-- C3 counterexample: previous members are A, B and C; the current scrape
holds only A and C.  After the run no row of the main grid names B (that half
of the claim holds), but the archive worksheet is byte-identical to before:
no archive row at all is produced for B, rather than exactly one. -/
theorem departed_member_not_archived :
    ((run_update (DateTime.mk 2 1 2024 10 0 0)
        (SheetStore.mk
          [["Rank", "Name", "Title", "Vocation", "Level", "Joining Date",
            "Level_01/01/2024_10:00:00"],
           ["Member", "A", "", "Elite Knight", "100", "Jan 05 2023", "100"],
           ["Member", "B", "", "Druid", "150", "Jan 06 2023", "150"],
           ["Member", "C", "", "Paladin", "120", "Jan 07 2023", "120"]]
          [["Rank", "Name", "Title", "Vocation", "Level", "Joining Date",
            "LeftDate", "Reason"]])
        [Member.mk "Member" "A" "" "Elite Knight" "101" "Jan 05 2023",
         Member.mk "Member" "C" "" "Paladin" "121" "Jan 07 2023"]).main.filter
      (fun row => row.getD 1 "" == "B")) = [] ∧
    (run_update (DateTime.mk 2 1 2024 10 0 0)
        (SheetStore.mk
          [["Rank", "Name", "Title", "Vocation", "Level", "Joining Date",
            "Level_01/01/2024_10:00:00"],
           ["Member", "A", "", "Elite Knight", "100", "Jan 05 2023", "100"],
           ["Member", "B", "", "Druid", "150", "Jan 06 2023", "150"],
           ["Member", "C", "", "Paladin", "120", "Jan 07 2023", "120"]]
          [["Rank", "Name", "Title", "Vocation", "Level", "Joining Date",
            "LeftDate", "Reason"]])
        [Member.mk "Member" "A" "" "Elite Knight" "101" "Jan 05 2023",
         Member.mk "Member" "C" "" "Paladin" "121" "Jan 07 2023"]).archive =
      [["Rank", "Name", "Title", "Vocation", "Level", "Joining Date",
        "LeftDate", "Reason"]] := by
  decide

/-- C3 amended: members absent from the current list are excluded from the
next main grid, which is rebuilt from the current list alone, but no archive
row is produced for them: the run leaves every worksheet other than the main
one, including any archive, untouched. -/
theorem departure_excluded_but_unarchived (now : DateTime) (store : SheetStore)
    (guild_data : List Member) :
    (run_update now store guild_data).archive = store.archive ∧
    (run_update now store guild_data).main = headers now :: guild_data.map member_to_row ∧
    ∀ row ∈ (run_update now store guild_data).main.drop 1,
      ∃ m ∈ guild_data, row = member_to_row m := by
  refine ⟨rfl, rfl, ?_⟩
  intro row hrow
  simp only [run_update, update_spreadsheet, List.drop_succ_cons, List.drop_zero,
    List.mem_map] at hrow
  obtain ⟨m, hm, rfl⟩ := hrow
  exact ⟨m, hm, rfl⟩

/-- Witness for C3's amended statement at a concrete departed-member store. -/
theorem departure_excluded_but_unarchived_witness :
    ∃ m ∈ [Member.mk "Member" "A" "" "Elite Knight" "101" "Jan 05 2023"],
      member_to_row (Member.mk "Member" "A" "" "Elite Knight" "101" "Jan 05 2023") = member_to_row m :=
  (departure_excluded_but_unarchived (DateTime.mk 2 1 2024 10 0 0)
      (SheetStore.mk [["Rank"], ["Member", "B", "", "Druid", "150", "Jan 06 2023"]] [])
      [Member.mk "Member" "A" "" "Elite Knight" "101" "Jan 05 2023"]).2.2 _ (by decide)

/-- C5 counterexample: with a nonempty previously persisted grid, a store
failure at `worksheet.update` (after the successful `worksheet.clear`) leaves
the main sheet empty: neither the previous state is preserved nor the new
grid applied, so the update is applied partially, not all-or-nothing. -/
theorem store_failure_leaves_empty :
    (update_spreadsheet_fallible (DateTime.mk 2 1 2024 10 0 0)
        [["Rank", "Name", "Title", "Vocation", "Level", "Joining Date"],
         ["Member", "Alice", "", "Elite Knight", "100", "Jan 05 2023"]]
        [Member.mk "Member" "Alice" "" "Elite Knight" "105" "Jan 05 2023"]
        StoreFailure.onUpdate).2 = [] ∧
    ([] : List (List String)) ≠
      [["Rank", "Name", "Title", "Vocation", "Level", "Joining Date"],
       ["Member", "Alice", "", "Elite Knight", "100", "Jan 05 2023"]] ∧
    ([] : List (List String)) ≠
      update_spreadsheet (DateTime.mk 2 1 2024 10 0 0)
        [["Rank", "Name", "Title", "Vocation", "Level", "Joining Date"],
         ["Member", "Alice", "", "Elite Knight", "100", "Jan 05 2023"]]
        [Member.mk "Member" "Alice" "" "Elite Knight" "105" "Jan 05 2023"] := by
  decide

/-- C5 amended: `update_spreadsheet` returns True exactly when no store call
fails, and it is not atomic: whenever the previously persisted grid is
nonempty there is a failure point — the update call after a successful clear —
that leaves the main sheet holding neither the previous state nor the new
grid (it is left empty). -/
theorem store_failure_not_atomic (now : DateTime)
    (prevGrid : List (List String)) (guild_data : List Member) :
    (∀ f, (update_spreadsheet_fallible now prevGrid guild_data f).1 = true ↔
      f = StoreFailure.noFailure) ∧
    (prevGrid ≠ [] → ∃ f,
      (update_spreadsheet_fallible now prevGrid guild_data f).1 = false ∧
      (update_spreadsheet_fallible now prevGrid guild_data f).2 ≠ prevGrid ∧
      (update_spreadsheet_fallible now prevGrid guild_data f).2 ≠
        update_spreadsheet now prevGrid guild_data) := by
  constructor
  · intro f
    cases f <;> simp [update_spreadsheet_fallible]
  · intro hne
    refine ⟨StoreFailure.onUpdate, rfl, ?_, ?_⟩
    · exact fun h => hne h.symm
    · exact fun h => List.cons_ne_nil _ _ h.symm

/-- Witness for C5's amended statement at a concrete nonempty previous grid. -/
theorem store_failure_not_atomic_witness :
    ∃ f, (update_spreadsheet_fallible (DateTime.mk 2 1 2024 10 0 0)
        [["Rank"], ["Member", "Alice", "", "Elite Knight", "100", "Jan 05 2023"]]
        [Member.mk "Member" "Alice" "" "Elite Knight" "105" "Jan 05 2023"] f).1 = false ∧
      (update_spreadsheet_fallible (DateTime.mk 2 1 2024 10 0 0)
        [["Rank"], ["Member", "Alice", "", "Elite Knight", "100", "Jan 05 2023"]]
        [Member.mk "Member" "Alice" "" "Elite Knight" "105" "Jan 05 2023"] f).2 ≠
        [["Rank"], ["Member", "Alice", "", "Elite Knight", "100", "Jan 05 2023"]] ∧
      (update_spreadsheet_fallible (DateTime.mk 2 1 2024 10 0 0)
        [["Rank"], ["Member", "Alice", "", "Elite Knight", "100", "Jan 05 2023"]]
        [Member.mk "Member" "Alice" "" "Elite Knight" "105" "Jan 05 2023"] f).2 ≠
        update_spreadsheet (DateTime.mk 2 1 2024 10 0 0)
          [["Rank"], ["Member", "Alice", "", "Elite Knight", "100", "Jan 05 2023"]]
          [Member.mk "Member" "Alice" "" "Elite Knight" "105" "Jan 05 2023"] :=
  (store_failure_not_atomic (DateTime.mk 2 1 2024 10 0 0)
      [["Rank"], ["Member", "Alice", "", "Elite Knight", "100", "Jan 05 2023"]]
      [Member.mk "Member" "Alice" "" "Elite Knight" "105" "Jan 05 2023"]).2 (by decide)

/-- The admission condition as the claim words it: at least 7 cells, the Rank
cell (index 1) and Name cell (index 2) non-empty, and the Rank cell not one
of the three skip strings. -/
def claimAdmission (row : List String) : Prop :=
  7 ≤ row.length ∧ row.getD 1 "" ≠ "" ∧ row.getD 2 "" ≠ "" ∧
  row.getD 1 "" ∉ ["", "INSTRUCTIONS:", "Example Member"]

instance (row : List String) : Decidable (claimAdmission row) := by
  unfold claimAdmission; infer_instance

/-- C8 counterexample: this backup row contains no known vocation phrase in
any of its cells (checked against the whole joined line), yet
`process_backup_data` produces a MemberRecord from it: the vocation match is
not a necessary condition for a line to yield a record. -/
theorem member_without_vocation_admitted :
    (∀ v ∈ vocations, occursIn v.data
      (String.intercalate " "
        ["01/01/2025", "Leader", "SomeGuy", "", "", "", "Jan 01 2025"]).data = false) ∧
    process_backup_data [data_headers,
        ["01/01/2025", "Leader", "SomeGuy", "", "", "", "Jan 01 2025"]] =
      [Member.mk "Leader" "SomeGuy" "" "" "" "Jan 01 2025"] := by
  decide

/-- C8 amended: admission of a backup row is independent of vocation content:
rewriting the Vocation cell (index 4) never changes the admission verdict, and
every post-header row with at least 7 cells, non-empty Rank and Name cells and
Rank outside the skip list yields a MemberRecord whether or not any vocation
phrase occurs in it. -/
theorem no_vocation_filter (data : List (List String)) (row : List String) :
    (∀ v, admits_row (row.set 4 v) = admits_row row) ∧
    (2 ≤ data.length → row ∈ data.drop 1 → admits_row row = true →
      row_to_member row ∈ process_backup_data data) := by
  constructor
  · intro v
    unfold admits_row
    have h1 : (row.set 4 v).getD 1 "" = row.getD 1 "" := by
      simp [List.getD, List.getElem?_set_ne (by decide : (4 : Nat) ≠ 1)]
    have h2 : (row.set 4 v).getD 2 "" = row.getD 2 "" := by
      simp [List.getD, List.getElem?_set_ne (by decide : (4 : Nat) ≠ 2)]
    rw [h1, h2, List.length_set]
  · intro hlen hmem hadm
    unfold process_backup_data
    rw [if_neg (by omega)]
    exact List.mem_map_of_mem _ (List.mem_filter.mpr ⟨hmem, hadm⟩)

/-- Witness for C8's amended statement: a vocationless row is admitted. -/
theorem no_vocation_filter_witness :
    row_to_member ["02/01/2025", "Member", "OtherGuy", "", "", "", "Jan 02 2025"] ∈
      process_backup_data [data_headers,
        ["02/01/2025", "Member", "OtherGuy", "", "", "", "Jan 02 2025"]] :=
  (no_vocation_filter [data_headers,
      ["02/01/2025", "Member", "OtherGuy", "", "", "", "Jan 02 2025"]]
      ["02/01/2025", "Member", "OtherGuy", "", "", "", "Jan 02 2025"]).2
    (by decide) (by decide) (by decide)

/-- C10: a backup row passes the filter of `process_backup_data` exactly
under the claimed condition (at least 7 cells, non-empty Rank and Name cells,
Rank not in the skip list — the skip list is compared against the Rank cell,
not the Name cell), every such post-header row is processed into a member,
and the pre-filled template row (Rank `Leader`, Name `Example Member`)
satisfies the condition and is processed as a genuine member. -/
theorem backup_admission_policy (data : List (List String))
    (row : List String) (d : String) :
    (admits_row row = true ↔ claimAdmission row) ∧
    (2 ≤ data.length → row ∈ data.drop 1 → claimAdmission row →
      row_to_member row ∈ process_backup_data data) ∧
    claimAdmission (template_row d) ∧
    (row_to_member (template_row d)).rank = "Leader" ∧
    (row_to_member (template_row d)).name = "Example Member" := by
  have hiff : admits_row row = true ↔ claimAdmission row := by
    unfold admits_row claimAdmission skip_values
    simp [List.elem_iff, and_assoc]
  refine ⟨hiff, ?_, ?_, rfl, rfl⟩
  · intro hlen hmem hadm
    unfold process_backup_data
    rw [if_neg (by omega)]
    exact List.mem_map_of_mem _ (List.mem_filter.mpr ⟨hmem, hiff.mpr hadm⟩)
  · unfold claimAdmission template_row
    refine ⟨by simp, ?_, ?_, ?_⟩ <;> simp [List.getD]

/-- Witness for C10 at the template row beneath the backup header. -/
theorem backup_admission_policy_witness :
    row_to_member (template_row "11/10/2026") ∈
      process_backup_data [data_headers, template_row "11/10/2026"] :=
  (backup_admission_policy [data_headers, template_row "11/10/2026"]
      (template_row "11/10/2026") "11/10/2026").2.1
    (by decide) (by decide) (by decide)
